import Mathlib

/-!
Shallow embedding of `src/media/player.rs` (RustPlayer).

Time is modelled in integral nanoseconds: `Instant` becomes an absolute
timestamp `Nat`, `Duration` becomes a `Nat`, and every operation that reads
the clock (`Instant::now()` / `Instant::elapsed()`) takes the current time
`now : Nat` as an explicit argument, with `instant.elapsed() = now - t0`
(truncated subtraction, matching the non-negative monotone clock).

The rodio sink is opaque to the core logic; we keep the two observables the
code queries or the claims mention: the paused flag (`Sink::is_paused`) and
whether `Sink::stop` has been invoked on the current sink.
-/

set_option autoImplicit false

namespace RustPlayer

/-- The `rodio::Sink` as seen by the player: `pause`/`play` toggle the paused
flag; `stop` halts the sink and clears its queue, recorded in `stopped`. -/
structure Sink where
  paused : Bool
  stopped : Bool
deriving Repr, DecidableEq

def Sink.play (s : Sink) : Sink := { s with paused := false }

def Sink.pause (s : Sink) : Sink := { s with paused := true }

def Sink.stop (s : Sink) : Sink := { s with stopped := true }

/-- A freshly constructed sink (`Sink::try_new`): not paused, not stopped. -/
def Sink.fresh : Sink := { paused := false, stopped := false }

/-- The `PlayStatus` enum from player.rs: `Waiting`, `Playing(Instant, Duration)`
(start instant and time already played), `Stopped(Duration)`. -/
inductive PlayStatus where
  | waiting
  | playing (startedAt : Nat) (alreadyPlayed : Nat)
  | stopped (alreadyPlayed : Nat)
deriving Repr, DecidableEq

/-- The `PlayListItem` struct from player.rs. -/
structure PlayListItem where
  name : String
  duration : Nat
  current_pos : Nat
  status : PlayStatus
deriving Repr, DecidableEq

/-- The `PlayList` struct from player.rs. -/
structure PlayList where
  lists : List PlayListItem
deriving Repr, DecidableEq

/-- The `MusicPlayer` struct from player.rs (the `OutputStream`/`OutputStreamHandle`
fields carry no state the core reads; the sink keeps its observables). -/
structure MusicPlayer where
  current_time : Nat
  total_time : Nat
  play_list : PlayList
  sink : Sink
  initialized : Bool
deriving Repr, DecidableEq

namespace MusicPlayer

/-- Embeds `MusicPlayer::new()`. -/
def new : MusicPlayer :=
  { current_time := 0
    total_time := 0
    play_list := { lists := [] }
    sink := Sink.fresh
    initialized := false }

/-- Embeds `MusicPlayer::is_playing`:
`initialized && !sink.is_paused() && !play_list.lists.is_empty()`. -/
def is_playing (p : MusicPlayer) : Bool :=
  p.initialized && !p.sink.paused && !p.play_list.lists.isEmpty

/-- Embeds `MusicPlayer::play`: unconditionally `sink.play()`, then the head item
transitions `Waiting ↦ Playing(now, 0)`, `Stopped(d) ↦ Playing(now, d)`,
`Playing` unchanged. Always returns `true`. -/
def play (p : MusicPlayer) (now : Nat) : MusicPlayer × Bool :=
  let p := { p with sink := p.sink.play }
  match p.play_list.lists with
  | [] => (p, true)
  | item :: rest =>
    let status :=
      match item.status with
      | .waiting => PlayStatus.playing now 0
      | .playing t d => PlayStatus.playing t d
      | .stopped d => PlayStatus.playing now d
    ({ p with play_list := { lists := { item with status := status } :: rest } }, true)

/-- Embeds `MusicPlayer::stop`: `sink.stop()`, returns `true`. -/
def stop (p : MusicPlayer) : MusicPlayer × Bool :=
  ({ p with sink := p.sink.stop }, true)

/-- Embeds `MusicPlayer::pause`: unconditionally `sink.pause()`, then the head item
transitions `Playing(t0, d) ↦ Stopped(d + elapsed)` where
`elapsed = now - t0`; `Waiting` and `Stopped` unchanged. Always `true`. -/
def pause (p : MusicPlayer) (now : Nat) : MusicPlayer × Bool :=
  let p := { p with sink := p.sink.pause }
  match p.play_list.lists with
  | [] => (p, true)
  | item :: rest =>
    let status :=
      match item.status with
      | .waiting => PlayStatus.waiting
      | .playing t d => PlayStatus.stopped (d + (now - t))
      | .stopped d => PlayStatus.stopped d
    ({ p with play_list := { lists := { item with status := status } :: rest } }, true)

/-- Embeds `MusicPlayer::resume`: unconditionally `sink.play()`, then only the
`Stopped(d) ↦ Playing(now, d)` transition on the head; `Waiting` and
`Playing` unchanged. Always `true`. -/
def resume (p : MusicPlayer) (now : Nat) : MusicPlayer × Bool :=
  let p := { p with sink := p.sink.play }
  match p.play_list.lists with
  | [] => (p, true)
  | item :: rest =>
    let status :=
      match item.status with
      | .waiting => PlayStatus.waiting
      | .playing t d => PlayStatus.playing t d
      | .stopped d => PlayStatus.playing now d
    ({ p with play_list := { lists := { item with status := status } :: rest } }, true)

/-- Embeds `MusicPlayer::get_progress`: the code returns the constant
`(0.0, 0.0)` (both components exactly zero). -/
def get_progress (_ : MusicPlayer) : Nat × Nat := (0, 0)

/-- Embeds `MusicPlayer::tick`. Here `is_playing` is sampled before inspecting the head.
Head `Waiting`: promote to `Playing(now, 0)` if `is_playing`. Head
`Playing(t0, d)`: with `n = (now - t0) + d`, remove the head when
`n ≥ duration`, otherwise set `current_time = n`, `total_time = duration`.
Head `Stopped(d)`: `current_time = d`, `total_time = duration`. Empty
playlist: `stop()`. -/
def tick (p : MusicPlayer) (now : Nat) : MusicPlayer :=
  let isPlaying := p.is_playing
  match p.play_list.lists with
  | song :: rest =>
    match song.status with
    | .waiting =>
      if isPlaying then
        { p with play_list := { lists := { song with status := PlayStatus.playing now 0 } :: rest } }
      else p
    | .playing t d =>
      let n := (now - t) + d
      if song.duration ≤ n then
        { p with play_list := { lists := rest } }
      else
        { p with current_time := n, total_time := song.duration }
    | .stopped d =>
      { p with current_time := d, total_time := song.duration }
  | [] =>
    if p.play_list.lists.isEmpty then (p.stop).1 else p

/-- Embeds `MusicPlayer::next`: if the playlist has more than one item, `stop()`
the sink and remove the head, returning `true`; otherwise return `false`
without touching anything. -/
def next (p : MusicPlayer) : MusicPlayer × Bool :=
  let len := p.play_list.lists.length
  if len > 1 then
    let p := (p.stop).1
    ({ p with play_list := { lists := p.play_list.lists.tail } }, true)
  else
    (p, false)

end MusicPlayer

/-- The `media::Source` enum as used by `add_to_list`: a remote URL or a local path. -/
inductive Source where
  | http (url : String)
  | localPath (path : String)
deriving Repr, DecidableEq

/-- The `media::Media` struct as used by `add_to_list`. -/
structure Media where
  src : Source
deriving Repr, DecidableEq

/-- The external file-system / decoding environment `add_to_list` consults:
whether `File::open` succeeds, what `mp3_duration::from_file` probes,
whether `Decoder::new` succeeds, and the file name extracted from the path. -/
structure Env where
  openOk : String → Bool
  probeDuration : String → Option Nat
  decodeOk : String → Bool
  fileName : String → String
  now : Nat

namespace MusicPlayer

/-- Embeds `MusicPlayer::add_to_list`. Here `none` models divergence: the `Http`
branch is `todo!()` and panics. The `Local` branch opens the file, probes
the duration, decodes; on any failure it returns `false` without mutating
state. On success it sets `initialized`, optionally (`once`) resets the
sink and clears the playlist, appends the new `Waiting` item, then calls
`play()` and one manual `tick()` and returns `true`. -/
def add_to_list (p : MusicPlayer) (env : Env) (media : Media) (once : Bool) :
    Option (MusicPlayer × Bool) :=
  match media.src with
  | .http _ => none
  | .localPath path =>
    if env.openOk path then
      match env.probeDuration path with
      | some duration =>
        if env.decodeOk path then
          let p := if !p.initialized then { p with initialized := true } else p
          let p :=
            if once then
              { p with sink := Sink.fresh, play_list := { lists := [] } }
            else p
          let item : PlayListItem :=
            { name := env.fileName path
              duration := duration
              current_pos := 0
              status := PlayStatus.waiting }
          let p := { p with play_list := { lists := p.play_list.lists ++ [item] } }
          let p := (p.play env.now).1
          let p := p.tick env.now
          some (p, true)
        else
          some (p, false)
      | none => some (p, false)
    else
      some (p, false)

end MusicPlayer

/-- The `already_played` component of a status (`0` for `Waiting`, which
stores none). -/
def PlayStatus.alreadyPlayed : PlayStatus → Nat
  | .waiting => 0
  | .playing _ d => d
  | .stopped d => d

/-- The `already_played` component of the head item (`0` if the playlist is
empty). -/
def MusicPlayer.headAlreadyPlayed (p : MusicPlayer) : Nat :=
  match p.play_list.lists with
  | [] => 0
  | item :: _ => item.status.alreadyPlayed

/-- A caller-driven transport event, carrying the clock value at which the
operation runs. -/
inductive Op where
  | play (now : Nat)
  | pause (now : Nat)
  | resume (now : Nat)
  | tick (now : Nat)
deriving Repr, DecidableEq

/-- Apply one transport event to the player. -/
def MusicPlayer.applyOp (p : MusicPlayer) : Op → MusicPlayer
  | .play now => (p.play now).1
  | .pause now => (p.pause now).1
  | .resume now => (p.resume now).1
  | .tick now => p.tick now

/-- Run a sequence of transport events from left to right. -/
def MusicPlayer.run (p : MusicPlayer) : List Op → MusicPlayer
  | [] => p
  | op :: ops => (p.applyOp op).run ops

/-- A ten-unit track, freshly queued. -/
def sampleItem : PlayListItem :=
  { name := "a", duration := 10, current_pos := 0, status := .waiting }

/-- An initialized player holding exactly `sampleItem`, sink fresh. -/
def samplePlayer : MusicPlayer :=
  { current_time := 0
    total_time := 0
    play_list := { lists := [sampleItem] }
    sink := Sink.fresh
    initialized := true }

/-- The ten-unit track, started at instant `0` with `4` already played. -/
def playingItem : PlayListItem := { sampleItem with status := .playing 0 4 }

/-- The `samplePlayer` state with its head mid-playback. -/
def playingPlayer : MusicPlayer :=
  { samplePlayer with play_list := { lists := [playingItem] } }

/-- The `samplePlayer` state with the sink already paused. -/
def pausedPlayer : MusicPlayer :=
  { samplePlayer with sink := { paused := true, stopped := false } }

/-- The ten-unit track, started at instant `0` with nothing pre-played. -/
def doneItem : PlayListItem := { sampleItem with status := .playing 0 0 }

/-- A player whose single head item started at instant `0` with nothing
pre-played. -/
def donePlayer : MusicPlayer :=
  { samplePlayer with play_list := { lists := [doneItem] } }

/-- A two-item playlist: the head mid-playback, a waiting item behind it. -/
def twoItemPlayer : MusicPlayer :=
  { samplePlayer with play_list := { lists := [playingItem, sampleItem] } }

/-- No transport event ever lengthens the playlist. -/
theorem applyOp_length_le (p : MusicPlayer) (op : Op) :
    (p.applyOp op).play_list.lists.length ≤ p.play_list.lists.length := by
  cases op with
  | play now =>
    simp only [MusicPlayer.applyOp, MusicPlayer.play]
    cases h : p.play_list.lists <;> simp [h]
  | pause now =>
    simp only [MusicPlayer.applyOp, MusicPlayer.pause]
    cases h : p.play_list.lists <;> simp [h]
  | resume now =>
    simp only [MusicPlayer.applyOp, MusicPlayer.resume]
    cases h : p.play_list.lists <;> simp [h]
  | tick now =>
    simp only [MusicPlayer.applyOp, MusicPlayer.tick]
    cases h : p.play_list.lists with
    | nil => simp [h, MusicPlayer.stop]
    | cons song rest =>
      cases hs : song.status with
      | waiting => simp only [h, hs]; split <;> simp [h]
      | playing t d =>
        simp only [h, hs]
        split <;> simp [h]
      | stopped d => simp [h, hs]

/-- Running a trace never lengthens the playlist. -/
theorem run_length_le (ops : List Op) (p : MusicPlayer) :
    (p.run ops).play_list.lists.length ≤ p.play_list.lists.length := by
  induction ops generalizing p with
  | nil => exact Nat.le_refl _
  | cons op ops ih =>
    exact Nat.le_trans (ih (p.applyOp op)) (applyOp_length_le p op)

/-- One transport event that does not shrink the playlist never decreases
the head's `already_played`. -/
theorem headAlreadyPlayed_applyOp (p : MusicPlayer) (op : Op)
    (h : (p.applyOp op).play_list.lists.length = p.play_list.lists.length) :
    p.headAlreadyPlayed ≤ (p.applyOp op).headAlreadyPlayed := by
  cases op with
  | play now =>
    simp only [MusicPlayer.applyOp, MusicPlayer.play] at *
    cases hl : p.play_list.lists with
    | nil => simp [MusicPlayer.headAlreadyPlayed, hl]
    | cons item rest =>
      cases hs : item.status <;>
        simp [MusicPlayer.headAlreadyPlayed, hl, hs, PlayStatus.alreadyPlayed]
  | pause now =>
    simp only [MusicPlayer.applyOp, MusicPlayer.pause] at *
    cases hl : p.play_list.lists with
    | nil => simp [MusicPlayer.headAlreadyPlayed, hl]
    | cons item rest =>
      cases hs : item.status <;>
        simp [MusicPlayer.headAlreadyPlayed, hl, hs, PlayStatus.alreadyPlayed]
  | resume now =>
    simp only [MusicPlayer.applyOp, MusicPlayer.resume] at *
    cases hl : p.play_list.lists with
    | nil => simp [MusicPlayer.headAlreadyPlayed, hl]
    | cons item rest =>
      cases hs : item.status <;>
        simp [MusicPlayer.headAlreadyPlayed, hl, hs, PlayStatus.alreadyPlayed]
  | tick now =>
    simp only [MusicPlayer.applyOp, MusicPlayer.tick] at h ⊢
    cases hl : p.play_list.lists with
    | nil =>
      simp only [hl]
      simp [MusicPlayer.headAlreadyPlayed, MusicPlayer.stop, hl]
    | cons song rest =>
      cases hs : song.status with
      | waiting =>
        simp only [hl, hs]
        split <;>
          simp [MusicPlayer.headAlreadyPlayed, hl, hs, PlayStatus.alreadyPlayed]
      | playing t d =>
        simp only [hl, hs] at h ⊢
        split at h
        · simp at h
        · rename_i hd
          rw [if_neg hd]
          simp [MusicPlayer.headAlreadyPlayed, hl, hs]
      | stopped d =>
        simp only [hl, hs]
        simp [MusicPlayer.headAlreadyPlayed, hl, hs]

/-- Over a trace that leaves the playlist the same length (so the head item
was never removed), the head's `already_played` is non-decreasing. -/
theorem headAlreadyPlayed_run (ops : List Op) (p : MusicPlayer)
    (h : (p.run ops).play_list.lists.length = p.play_list.lists.length) :
    p.headAlreadyPlayed ≤ (p.run ops).headAlreadyPlayed := by
  induction ops generalizing p with
  | nil => exact Nat.le_refl _
  | cons op ops ih =>
    simp only [MusicPlayer.run] at h ⊢
    have h1 := run_length_le ops (p.applyOp op)
    have h2 := applyOp_length_le p op
    have h3 : (p.applyOp op).play_list.lists.length = p.play_list.lists.length := by
      omega
    exact Nat.le_trans (headAlreadyPlayed_applyOp p op h3) (ih (p.applyOp op) (by omega))

/-- After `tick` on a `Playing` head, the head is either removed or kept
unchanged with `already_played ≤ duration`. -/
theorem tick_playing_bound (p : MusicPlayer) (now t d : Nat) (song : PlayListItem)
    (rest : List PlayListItem) (hl : p.play_list.lists = song :: rest)
    (hs : song.status = .playing t d) :
    (p.tick now).play_list.lists = rest ∨
      ((p.tick now).play_list.lists = song :: rest ∧ d ≤ song.duration) := by
  simp only [MusicPlayer.tick, hl, hs]
  split
  · exact Or.inl rfl
  · rename_i hd
    exact Or.inr ⟨hl, by omega⟩

/-- C1: on a head item in status `Playing(t0, d)`, `tick()` computes
`elapsed = now - t0 + d`; if `elapsed ≥ duration` it removes exactly the
head item (the playlist becomes one shorter, the tail — including the next
item's status — and the sink and time fields are untouched, so the next
item is not started); otherwise it sets `current_time = elapsed` and
`total_time = duration`, leaving the playlist unchanged. -/
theorem C1_tick_playing_head (p : MusicPlayer) (now t d : Nat)
    (song : PlayListItem) (rest : List PlayListItem)
    (hl : p.play_list.lists = song :: rest)
    (hs : song.status = .playing t d) :
    (song.duration ≤ (now - t) + d →
      (p.tick now).play_list.lists = rest ∧
      (p.tick now).play_list.lists.length + 1 = p.play_list.lists.length ∧
      (p.tick now).sink = p.sink ∧
      (p.tick now).current_time = p.current_time ∧
      (p.tick now).total_time = p.total_time) ∧
    ((now - t) + d < song.duration →
      (p.tick now).play_list.lists = song :: rest ∧
      (p.tick now).current_time = (now - t) + d ∧
      (p.tick now).total_time = song.duration) := by
  simp only [MusicPlayer.tick, hl, hs]
  constructor
  · intro hdone
    rw [if_pos hdone]
    simp [hl]
  · intro hrun
    rw [if_neg (by omega)]
    simp [hl]

/-- Witness for C1 at a concrete finished track. -/
theorem C1_witness :
    (playingPlayer.tick 20).play_list.lists = [] ∧
    (playingPlayer.tick 20).play_list.lists.length + 1 =
      playingPlayer.play_list.lists.length ∧
    (playingPlayer.tick 20).sink = playingPlayer.sink ∧
    (playingPlayer.tick 20).current_time = playingPlayer.current_time ∧
    (playingPlayer.tick 20).total_time = playingPlayer.total_time :=
  (C1_tick_playing_head playingPlayer 20 0 4 playingItem [] rfl rfl).1 (by decide)

/-- C2 counterexample: start `samplePlayer` (head: duration 10, Waiting),
`play` at time 0, `pause` at time 15 (already_played becomes 15), `tick` at
time 16: the head item is still present and its `already_played = 15`
exceeds its duration 10, refuting "after any tick() the item, if still
present, has already_played ≤ its total duration". -/
theorem C2_counterexample :
    (samplePlayer.run [Op.play 0, Op.pause 15, Op.tick 16]).play_list.lists =
      [{ name := "a", duration := 10, current_pos := 0, status := .stopped 15 }] ∧
    10 < (samplePlayer.run [Op.play 0, Op.pause 15, Op.tick 16]).headAlreadyPlayed := by
  constructor
  · rfl
  · decide

/-- C2 (amended): over any sequence of play/pause/resume/tick events during
which the head item is never removed (the playlist keeps its length), the
head's `already_played` is monotonically non-decreasing; and a `tick()` on a
`Playing` head either removes it or keeps it with `already_played ≤
duration`. (A `Stopped` head may carry `already_played > duration` when
`pause` ran after the track's end with no intervening `tick`; `tick` keeps
such an item.) -/
theorem C2_monotone_and_playing_bound (p : MusicPlayer) :
    (∀ ops : List Op,
      (p.run ops).play_list.lists.length = p.play_list.lists.length →
      p.headAlreadyPlayed ≤ (p.run ops).headAlreadyPlayed) ∧
    (∀ now t d song rest, p.play_list.lists = song :: rest →
      song.status = .playing t d →
      (p.tick now).play_list.lists = rest ∨
        ((p.tick now).play_list.lists = song :: rest ∧ d ≤ song.duration)) :=
  ⟨fun ops h => headAlreadyPlayed_run ops p h,
   fun now t d song rest hl hs => tick_playing_bound p now t d song rest hl hs⟩

/-- Witness for C2 (amended) on concrete traces. -/
theorem C2_witness :
    (samplePlayer.headAlreadyPlayed ≤
      (samplePlayer.run [Op.play 0, Op.tick 3]).headAlreadyPlayed) ∧
    ((playingPlayer.tick 2).play_list.lists = [] ∨
      ((playingPlayer.tick 2).play_list.lists = [playingItem] ∧
        4 ≤ playingItem.duration)) :=
  ⟨(C2_monotone_and_playing_bound samplePlayer).1 [Op.play 0, Op.tick 3] (by decide),
   (C2_monotone_and_playing_bound playingPlayer).2 2 0 4 playingItem [] rfl rfl⟩

/-- Rebuilding an item with its own status is the identity. -/
theorem set_status_self (item : PlayListItem) (s : PlayStatus)
    (h : item.status = s) : ({ item with status := s } : PlayListItem) = item := by
  subst h
  rfl

/-- C3: `play()` transforms the head item per the table — `Waiting ↦
Playing(now, 0)`, `Playing` unchanged, `Stopped(d) ↦ Playing(now, d)` —
returns `true` always, and on an empty playlist leaves the playlist
empty (no-op on the playlist, still `true`). -/
theorem C3_play_transitions (p : MusicPlayer) (now : Nat) :
    (p.play now).2 = true ∧
    (p.play_list.lists = [] → (p.play now).1.play_list.lists = []) ∧
    (∀ item rest, p.play_list.lists = item :: rest →
      (item.status = .waiting →
        (p.play now).1.play_list.lists =
          { item with status := .playing now 0 } :: rest) ∧
      (∀ t d, item.status = .playing t d →
        (p.play now).1.play_list.lists = item :: rest) ∧
      (∀ d, item.status = .stopped d →
        (p.play now).1.play_list.lists =
          { item with status := .playing now d } :: rest)) := by
  refine ⟨?_, ?_, ?_⟩
  · simp only [MusicPlayer.play]
    cases h : p.play_list.lists <;> simp [h]
  · intro h
    simp [MusicPlayer.play, h]
  · intro item rest hl
    refine ⟨?_, ?_, ?_⟩
    · intro hs
      simp [MusicPlayer.play, hl, hs]
    · intro t d hs
      simp only [MusicPlayer.play, hl, hs]
      rw [set_status_self item (PlayStatus.playing t d) hs]
    · intro d hs
      simp [MusicPlayer.play, hl, hs]

/-- Witness for C3 at a concrete `Waiting` head. -/
theorem C3_witness :
    (samplePlayer.play 7).2 = true ∧
    (samplePlayer.play 7).1.play_list.lists =
      [{ sampleItem with status := .playing 7 0 }] :=
  ⟨(C3_play_transitions samplePlayer 7).1,
   ((C3_play_transitions samplePlayer 7).2.2 sampleItem [] rfl).1 rfl⟩

/-- C4: `pause()` transforms a head in `Playing(t0, d)` to
`Stopped(d + (now - t0))` and leaves a `Waiting` or `Stopped` head
unchanged (idempotent pause). -/
theorem C4_pause_transitions (p : MusicPlayer) (now : Nat) :
    (p.pause now).2 = true ∧
    (∀ item rest, p.play_list.lists = item :: rest →
      (∀ t d, item.status = .playing t d →
        (p.pause now).1.play_list.lists =
          { item with status := .stopped (d + (now - t)) } :: rest) ∧
      (item.status = .waiting →
        (p.pause now).1.play_list.lists = item :: rest) ∧
      (∀ d, item.status = .stopped d →
        (p.pause now).1.play_list.lists = item :: rest)) := by
  refine ⟨?_, ?_⟩
  · simp only [MusicPlayer.pause]
    cases h : p.play_list.lists <;> simp [h]
  · intro item rest hl
    refine ⟨?_, ?_, ?_⟩
    · intro t d hs
      simp [MusicPlayer.pause, hl, hs]
    · intro hs
      simp only [MusicPlayer.pause, hl, hs]
      rw [set_status_self item PlayStatus.waiting hs]
    · intro d hs
      simp only [MusicPlayer.pause, hl, hs]
      rw [set_status_self item (PlayStatus.stopped d) hs]

/-- Witness for C4 at a concrete `Playing` head. -/
theorem C4_witness :
    (playingPlayer.pause 9).2 = true ∧
    (playingPlayer.pause 9).1.play_list.lists =
      [{ playingItem with status := .stopped (4 + (9 - 0)) }] :=
  ⟨(C4_pause_transitions playingPlayer 9).1,
   ((C4_pause_transitions playingPlayer 9).2 playingItem [] rfl).1 0 4 rfl⟩

/-- C5: `resume()` performs only the `Stopped(d) ↦ Playing(now, d)`
transition on the head; `Waiting` and `Playing` heads are unchanged. -/
theorem C5_resume_transitions (p : MusicPlayer) (now : Nat) :
    (p.resume now).2 = true ∧
    (∀ item rest, p.play_list.lists = item :: rest →
      (∀ d, item.status = .stopped d →
        (p.resume now).1.play_list.lists =
          { item with status := .playing now d } :: rest) ∧
      (item.status = .waiting →
        (p.resume now).1.play_list.lists = item :: rest) ∧
      (∀ t d, item.status = .playing t d →
        (p.resume now).1.play_list.lists = item :: rest)) := by
  refine ⟨?_, ?_⟩
  · simp only [MusicPlayer.resume]
    cases h : p.play_list.lists <;> simp [h]
  · intro item rest hl
    refine ⟨?_, ?_, ?_⟩
    · intro d hs
      simp [MusicPlayer.resume, hl, hs]
    · intro hs
      simp only [MusicPlayer.resume, hl, hs]
      rw [set_status_self item PlayStatus.waiting hs]
    · intro t d hs
      simp only [MusicPlayer.resume, hl, hs]
      rw [set_status_self item (PlayStatus.playing t d) hs]

/-- Witness for C5 at a concrete `Waiting` head: resume leaves it alone. -/
theorem C5_witness :
    (samplePlayer.resume 7).2 = true ∧
    (samplePlayer.resume 7).1.play_list.lists = [sampleItem] :=
  ⟨(C5_resume_transitions samplePlayer 7).1,
   ((C5_resume_transitions samplePlayer 7).2 sampleItem [] rfl).2.1 rfl⟩

/-- C6: `next()` on a playlist of length ≤ 1 returns `false` and changes
nothing; on length ≥ 2 it returns `true`, stops the sink, removes the head
(tail preserved verbatim, so the new head's status is unchanged), and the
length drops by exactly one. -/
theorem C6_next (p : MusicPlayer) :
    (p.play_list.lists.length ≤ 1 → p.next = (p, false)) ∧
    (2 ≤ p.play_list.lists.length →
      (p.next).2 = true ∧
      (p.next).1.sink.stopped = true ∧
      (p.next).1.play_list.lists = p.play_list.lists.tail ∧
      (p.next).1.play_list.lists.length + 1 = p.play_list.lists.length) := by
  constructor
  · intro h
    simp only [MusicPlayer.next]
    rw [if_neg (by omega)]
  · intro h
    simp only [MusicPlayer.next]
    rw [if_pos (by omega)]
    refine ⟨rfl, rfl, rfl, ?_⟩
    simp [MusicPlayer.stop]
    cases hl : p.play_list.lists with
    | nil => simp [hl] at h
    | cons a as => simp [hl]

/-- Witness for C6 at concrete one-item and two-item playlists. -/
theorem C6_witness :
    (samplePlayer.next = (samplePlayer, false)) ∧
    (twoItemPlayer.next).2 = true ∧
    (twoItemPlayer.next).1.sink.stopped = true ∧
    (twoItemPlayer.next).1.play_list.lists = [sampleItem] :=
  ⟨(C6_next samplePlayer).1 (by decide),
   ((C6_next twoItemPlayer).2 (by decide)).1,
   ((C6_next twoItemPlayer).2 (by decide)).2.1,
   ((C6_next twoItemPlayer).2 (by decide)).2.2.1⟩

/-- C7: `get_progress()` never mutates the player (in the code it takes
`&self` and is embedded as a pure function) but it returns the constant
`(0.0, 0.0)` instead of the `(current_time, total_time)` pair computed by
the most recent `tick()`: after `play` at 0 and `tick` at 4 on the ten-unit
track, `current_time = 4` yet `get_progress` still yields `(0, 0)`. -/
theorem C7_get_progress_stub :
    (∀ p : MusicPlayer, p.get_progress = (0, 0)) ∧
    ((samplePlayer.play 0).1.tick 4).current_time = 4 ∧
    ((samplePlayer.play 0).1.tick 4).total_time = 10 ∧
    ((samplePlayer.play 0).1.tick 4).get_progress.1 <
      ((samplePlayer.play 0).1.tick 4).current_time ∧
    ((samplePlayer.play 0).1.tick 4).get_progress.2 <
      ((samplePlayer.play 0).1.tick 4).total_time :=
  ⟨fun _ => rfl, by decide, by decide, by decide, by decide⟩

/-- C8 counterexample: `donePlayer` holds a single `Playing(0, 0)` item of
duration 10; `tick` at time 10 empties the playlist but the sink is NOT
stopped within that same call (`stopped` stays `false`), refuting "the sink
is halted within that same tick() call". -/
theorem C8_counterexample :
    (donePlayer.tick 10).play_list.lists = [] ∧
    (donePlayer.tick 10).sink.stopped = false := by
  constructor
  · rfl
  · decide

/-- C8 (amended): when the single head item is `Playing(t0, d)` with
`now - t0 + d ≥ duration`, `tick()` empties the playlist but leaves the
sink exactly as it was; `stop()` is invoked only by the NEXT `tick()` call,
made with the playlist already empty. -/
theorem C8_stop_deferred_to_next_tick (p : MusicPlayer) (now now2 t d : Nat)
    (song : PlayListItem)
    (hl : p.play_list.lists = [song])
    (hs : song.status = .playing t d)
    (hd : song.duration ≤ (now - t) + d) :
    (p.tick now).play_list.lists = [] ∧
    (p.tick now).sink = p.sink ∧
    ((p.tick now).tick now2).sink.stopped = true := by
  simp only [MusicPlayer.tick, hl, hs]
  rw [if_pos hd]
  refine ⟨rfl, rfl, ?_⟩
  simp [MusicPlayer.tick, MusicPlayer.stop, Sink.stop]

/-- Witness for C8 (amended) at the concrete finished single track. -/
theorem C8_witness :
    (donePlayer.tick 12).play_list.lists = [] ∧
    (donePlayer.tick 12).sink = donePlayer.sink ∧
    ((donePlayer.tick 12).tick 13).sink.stopped = true :=
  C8_stop_deferred_to_next_tick donePlayer 12 13 0 0 doneItem rfl rfl (by decide)

/-- C9 counterexample: `pause()` on a player whose sink is already paused
and whose head is `Waiting` returns `true` although nothing changed at all
(the resulting state equals the starting state), refuting "true iff the
requested effect actually occurred". -/
theorem C9_counterexample :
    (pausedPlayer.pause 5).2 = true ∧ (pausedPlayer.pause 5).1 = pausedPlayer := by
  constructor
  · rfl
  · decide

/-- C9 (amended): every transport operation is a total function and a no-op
when its precondition fails, but `play`/`pause`/`stop`/`resume`
unconditionally return `true` whether or not any effect occurred; only
`next()`'s return value reports the effect (`true` iff the playlist had at
least two items; on `≤ 1` items it returns `false` leaving the state
untouched). -/
theorem C9_total_and_returns (p : MusicPlayer) (now : Nat) :
    (p.play now).2 = true ∧
    (p.pause now).2 = true ∧
    (p.stop).2 = true ∧
    (p.resume now).2 = true ∧
    ((p.next).2 = true ↔ 2 ≤ p.play_list.lists.length) ∧
    (p.play_list.lists.length ≤ 1 → p.next = (p, false)) := by
  refine ⟨?_, ?_, rfl, ?_, ?_, ?_⟩
  · simp only [MusicPlayer.play]
    cases h : p.play_list.lists <;> simp [h]
  · simp only [MusicPlayer.pause]
    cases h : p.play_list.lists <;> simp [h]
  · simp only [MusicPlayer.resume]
    cases h : p.play_list.lists <;> simp [h]
  · simp only [MusicPlayer.next]
    by_cases h : p.play_list.lists.length > 1
    · rw [if_pos h]
      simp
      omega
    · rw [if_neg h]
      simp
      omega
  · intro h
    simp only [MusicPlayer.next]
    rw [if_neg (by omega)]

/-- Witness for C9 (amended) at a concrete one-item player. -/
theorem C9_witness :
    (pausedPlayer.play 1).2 = true ∧ pausedPlayer.next = (pausedPlayer, false) :=
  ⟨(C9_total_and_returns pausedPlayer 1).1,
   (C9_total_and_returns pausedPlayer 1).2.2.2.2.2 (by decide)⟩

/-- C10: `add_to_list` on a `Http` media source hits the `todo!()` branch
and diverges (modelled as `none`) for every player state and environment —
it never returns `false`; only `Local` media yields a boolean result
(always `some`). -/
theorem C10_add_to_list_http_diverges (p : MusicPlayer) (env : Env)
    (once : Bool) :
    (∀ url, p.add_to_list env { src := .http url } once = none) ∧
    (∀ path, ∃ r, p.add_to_list env { src := .localPath path } once = some r) := by
  constructor
  · intro url
    rfl
  · intro path
    simp only [MusicPlayer.add_to_list]
    by_cases h1 : env.openOk path
    · rw [if_pos h1]
      cases h2 : env.probeDuration path with
      | none => exact ⟨(p, false), rfl⟩
      | some duration =>
        by_cases h3 : env.decodeOk path
        · simp only [if_pos h3]
          exact ⟨_, rfl⟩
        · simp only [if_neg h3]
          exact ⟨(p, false), rfl⟩
    · rw [if_neg h1]
      exact ⟨(p, false), rfl⟩

end RustPlayer
